import Mathlib

/-!
Shallow embedding of the MCP Tools Manager core of the repository:
the Context7 provider adapter (`getApiKey`, `isContext7Available`,
`createContext7Tools` from `packages/ai-sdk-tools/src/context7/client.ts`)
and the tools manager (`createMCPTools`, `getAvailableMCPTools` from
`packages/ai-sdk-tools/src/mcp-tools-manager.ts`).

Modelling conventions:
- The process environment variable `CONTEXT7_API_KEY` is passed explicitly
  as `env : Option String` (`none` = the variable is unset).
- JavaScript `string | undefined` is `Option String`; the nullish-coalescing
  operator `??` is a match on the left operand; JS string falsiness
  (`!apiKey`) is true exactly for the empty string or `undefined`.
- Thrown exceptions are `Except` errors; the external I/O performed by
  `createContext7Tools` (subprocess spawn, MCP handshake, tool listing) is an
  oracle `io : String → Except String Conn` taking the resolved API key and
  returning either a connection or a thrown activation error.
- Emitted `console.warn` diagnostics and invocations of the adapter
  operations (availability probes, activation attempts) are observable side
  effects, recorded in the `ManagerRun` structure next to the returned
  result, in evaluation order, respecting `&&` / `||` short-circuiting.
- A per-provider close function is a `CloseFn`: an identity tag plus the
  outcome its promise settles with; invoking it is an observable event
  `(id, outcome)`. `Promise.all` over the dispatched invocations is
  `promiseAllClose`.
-/

namespace MCPTools

/-- Outcome a close promise settles with: resolved, or rejected with a message. -/
inductive CloseOutcome where
  | ok : CloseOutcome
  | failed (msg : String) : CloseOutcome
deriving DecidableEq, Repr

/-- A retained per-provider close function: an identity tag and the outcome
produced when it is invoked. -/
structure CloseFn where
  id : Nat
  result : CloseOutcome
deriving DecidableEq, Repr

/-- `Context7Config` from `context7/types.ts`: an optional API key. -/
structure Context7Config where
  apiKey : Option String
deriving DecidableEq, Repr

/-- `Context7ApiKeyError` from `context7/client.ts`: the error thrown when no
API key can be resolved; carries its fixed message. -/
structure Context7ApiKeyError where
  message : String :=
    "Context7 API key is required. Set CONTEXT7_API_KEY environment variable or pass apiKey in config."
deriving DecidableEq, Repr

/-- The subexpression `config?.apiKey ?? process.env.CONTEXT7_API_KEY` of
`getApiKey`: the explicit key if the field is set, otherwise the environment
value. -/
def mergedApiKey (config : Option Context7Config) (env : Option String) :
    Option String :=
  match Option.bind config Context7Config.apiKey with
  | some k => some k
  | none => env

/-- `getApiKey` from `context7/client.ts`: resolve the API key from explicit
configuration with environment fallback; `if (!apiKey) throw` rejects both a
missing value and the (falsy) empty string. -/
def getApiKey (config : Option Context7Config) (env : Option String) :
    Except Context7ApiKeyError String :=
  match mergedApiKey config env with
  | some k => if k = "" then Except.error {} else Except.ok k
  | none => Except.error {}

/-- `isContext7Available` from `context7/client.ts`: try `getApiKey`, return
`true` on success, collapse any thrown error to `false`. -/
def isContext7Available (config : Option Context7Config) (env : Option String) :
    Bool :=
  match getApiKey config env with
  | Except.ok _ => true
  | Except.error _ => false

/-- A live MCP connection produced by the external activation I/O: the tool
mapping the client reports and the close function of the client. -/
structure Conn where
  tools : List (String × String)
  close : CloseFn
deriving DecidableEq, Repr

/-- Errors that can escape `createContext7Tools`: the configuration error from
`getApiKey`, or an activation (spawn/handshake/listing) failure. -/
inductive MCPError where
  | apiKey (e : Context7ApiKeyError)
  | activation (msg : String)
deriving DecidableEq, Repr

/-- `Context7ToolsResult` from `context7/types.ts`: the tool mapping and the
close function of the underlying client. -/
structure Context7ToolsResult where
  tools : List (String × String)
  close : CloseFn
deriving DecidableEq, Repr

/-- `createContext7Tools` from `context7/client.ts`: resolve the API key
(propagating `Context7ApiKeyError`), then perform the connection I/O with the
resolved key (propagating its failure), returning the client tools and close. -/
def createContext7Tools (config : Option Context7Config) (env : Option String)
    (io : String → Except String Conn) : Except MCPError Context7ToolsResult :=
  match getApiKey config env with
  | Except.error e => Except.error (MCPError.apiKey e)
  | Except.ok apiKey =>
    match io apiKey with
    | Except.error e => Except.error (MCPError.activation e)
    | Except.ok conn => Except.ok { tools := conn.tools, close := conn.close }

/-- The `context7` entry of the manager configuration:
`Context7Config | boolean` in `mcp-tools-manager.ts`. -/
inductive C7Entry where
  | enable (b : Bool)
  | settings (c : Context7Config)
deriving DecidableEq, Repr

/-- `MCPToolsManagerConfig` from `mcp-tools-manager.ts`. -/
structure MCPToolsManagerConfig where
  context7 : Option C7Entry
deriving DecidableEq, Repr

/-- `MCPToolsResult` from `mcp-tools-manager.ts`; the `close` closure is
represented by the list of retained per-provider close functions it captures
(`closeFunctions`), to be dispatched by `MCPToolsResult.runClose`. -/
structure MCPToolsResult where
  tools : List (String × String)
  enabledSources : List String
  closes : List CloseFn
deriving DecidableEq, Repr

/-- Observable adapter operations invoked by the manager. -/
inductive AdapterCall where
  | isAvailableCall
  | activateCall
deriving DecidableEq, Repr

/-- One invocation of `createMCPTools`: the returned result, the
`console.warn` diagnostics emitted, and the adapter operations invoked, in
evaluation order. -/
structure ManagerRun where
  result : MCPToolsResult
  warnings : List MCPError
  calls : List AdapterCall
deriving DecidableEq, Repr

/-- The `context7Config` ternary chain of `createMCPTools`:
`config?.context7 === true ? {} : config?.context7 === false ? undefined :
config?.context7`. -/
def resolveContext7Config (entry : Option C7Entry) : Option Context7Config :=
  match entry with
  | some (C7Entry.enable true) => some { apiKey := none }
  | some (C7Entry.enable false) => none
  | some (C7Entry.settings c) => some c
  | none => none

/-- `createMCPTools` from `mcp-tools-manager.ts`. `shouldEnableContext7` is
`config?.context7 !== false && (config?.context7 !== undefined ||
isContext7Available(context7Config))`; the guard of the activation attempt is
`shouldEnableContext7 && isContext7Available(context7Config)`; short-circuit
evaluation determines which availability probes actually run. A successful
activation merges the tools, retains the close function and appends
`context7` to `enabledSources`; a thrown error is caught and warned. -/
def createMCPTools (config : Option MCPToolsManagerConfig) (env : Option String)
    (io : String → Except String Conn) : ManagerRun :=
  let entry : Option C7Entry := Option.bind config MCPToolsManagerConfig.context7
  let context7Config : Option Context7Config := resolveContext7Config entry
  if entry = some (C7Entry.enable false) then
    { result := { tools := [], enabledSources := [], closes := [] },
      warnings := [], calls := [] }
  else
    let probe : Bool × List AdapterCall :=
      if entry.isSome then (true, [])
      else (isContext7Available context7Config env, [AdapterCall.isAvailableCall])
    if probe.1 then
      if isContext7Available context7Config env then
        match createContext7Tools context7Config env io with
        | Except.ok r =>
          { result := { tools := r.tools, enabledSources := ["context7"],
                        closes := [r.close] },
            warnings := [],
            calls := probe.2 ++ [AdapterCall.isAvailableCall, AdapterCall.activateCall] }
        | Except.error e =>
          { result := { tools := [], enabledSources := [], closes := [] },
            warnings := [e],
            calls := probe.2 ++ [AdapterCall.isAvailableCall, AdapterCall.activateCall] }
      else
        { result := { tools := [], enabledSources := [], closes := [] },
          warnings := [],
          calls := probe.2 ++ [AdapterCall.isAvailableCall] }
    else
      { result := { tools := [], enabledSources := [], closes := [] },
        warnings := [], calls := probe.2 }

/-- `closeFunctions.map((fn) => fn())`: start every retained close, producing
one invocation event per retained function, in list order. -/
def dispatchCloses (fns : List CloseFn) : List (Nat × CloseOutcome) :=
  fns.map (fun f => (f.id, f.result))

/-- `Promise.all` over the dispatched close invocations: resolves when all
resolved, otherwise rejects with the first rejection. -/
def promiseAllClose (outcomes : List (Nat × CloseOutcome)) : CloseOutcome :=
  match outcomes.find? (fun o =>
      match o.2 with
      | CloseOutcome.ok => false
      | CloseOutcome.failed _ => true) with
  | some (_, c) => c
  | none => CloseOutcome.ok

/-- The `close` closure of `MCPToolsResult`:
`async () => { await Promise.all(closeFunctions.map((fn) => fn())); }`.
Returns the invocation events and the combined outcome. -/
def MCPToolsResult.runClose (r : MCPToolsResult) :
    List (Nat × CloseOutcome) × CloseOutcome :=
  let events := dispatchCloses r.closes
  (events, promiseAllClose events)

/-- `getAvailableMCPTools` from `mcp-tools-manager.ts`: report `context7` iff
`isContext7Available()` holds with no explicit configuration. -/
def getAvailableMCPTools (env : Option String) : List String :=
  if isContext7Available none env then ["context7"] else []

/-- Concrete activation oracle used in witnesses: every connection attempt
succeeds, yielding one tool and a close function that fails when invoked. -/
def ioOk : String → Except String Conn := fun _ =>
  Except.ok { tools := [("ctx7-doc", "tool")],
              close := { id := 7, result := CloseOutcome.failed "close-failure" } }

/-- Concrete activation oracle used in witnesses: every connection attempt
throws an activation error. -/
def ioFail : String → Except String Conn := fun _ =>
  Except.error "spawn failure"

/-- C5: `isContext7Available` returns `true` exactly when configuration
resolution (`getApiKey`) succeeds on the same argument; being a total
function of its arguments it never throws, and the failure branch collapses
to `false`. -/
theorem isAvailable_iff_resolution_succeeds (c : Option Context7Config)
    (e : Option String) :
    isContext7Available c e = true ↔ ∃ k, getApiKey c e = Except.ok k := by
  unfold isContext7Available
  cases h : getApiKey c e with
  | error err => simp [h]
  | ok k => simp [h]

/-- C7 counterexample: with an explicit configuration value present (the
empty string) and an environment value present, `getApiKey` still produces
the `Context7ApiKeyError`, contradicting the claim that resolution succeeds
whenever either value is present. -/
theorem getApiKey_error_despite_present_values :
    getApiKey (some { apiKey := some "" }) (some "envkey") = Except.error {} := by
  rfl

/-- C7 amended: `getApiKey` produces the `Context7ApiKeyError` exactly when
the merged value (the explicit `apiKey` field if set, otherwise the
environment value) is absent or the empty string; and whenever the merged
value is a non-empty string, resolution succeeds and returns exactly that
merged value as the key. -/
theorem getApiKey_error_iff_merged_absent_or_empty (c : Option Context7Config)
    (e : Option String) :
    (getApiKey c e = Except.error {} ↔
      (mergedApiKey c e = none ∨ mergedApiKey c e = some "")) ∧
    (∀ k, mergedApiKey c e = some k → k ≠ "" → getApiKey c e = Except.ok k) := by
  constructor
  · unfold getApiKey
    cases h : mergedApiKey c e with
    | none => simp
    | some k =>
      by_cases hk : k = "" <;> simp [hk]
  · intro k hk hne
    simp [getApiKey, hk, hne]

/-- C7 amended witness: with no explicit configuration and the environment
key set, the merged value is the environment key and `getApiKey` returns it. -/
theorem getApiKey_merged_success_witness :
    getApiKey none (some "envkey") = Except.ok "envkey" :=
  (getApiKey_error_iff_merged_absent_or_empty none (some "envkey")).2
    "envkey" rfl (by decide)

/-- C8: `getAvailableMCPTools` reports the `context7` identifier exactly when
`isContext7Available` holds with no explicit configuration; being a pure
function of the environment, it mutates nothing. -/
theorem listAvailable_reports_iff_available (env : Option String) :
    "context7" ∈ getAvailableMCPTools env ↔ isContext7Available none env = true := by
  unfold getAvailableMCPTools
  by_cases h : isContext7Available none env <;> simp [h]

/-- C9: enabling the provider with the literal boolean `true` is normalized
to the empty settings record before any availability check or activation, so
`createMCPTools {context7 := true}` and `createMCPTools {context7 := \x7b\x7d}`
coincide in result, warnings, and adapter calls, for every environment and
every activation outcome. -/
theorem enable_true_equiv_empty_settings (env : Option String)
    (io : String → Except String Conn) :
    createMCPTools (some { context7 := some (C7Entry.enable true) }) env io =
      createMCPTools
        (some { context7 := some (C7Entry.settings { apiKey := none }) }) env io := by
  rfl

/-- When every connection attempt of the oracle throws, `createContext7Tools`
throws as well: either the configuration error or the activation error. -/
theorem createContext7Tools_error_of_io (cfg : Option Context7Config)
    (env : Option String) (io : String → Except String Conn)
    (h : ∀ k, ∃ e, io k = Except.error e) :
    ∃ err, createContext7Tools cfg env io = Except.error err := by
  cases hg : getApiKey cfg env with
  | error e => exact ⟨MCPError.apiKey e, by simp [createContext7Tools, hg]⟩
  | ok k =>
    obtain ⟨e, he⟩ := h k
    exact ⟨MCPError.activation e, by simp [createContext7Tools, hg, he]⟩

/-- C1: `createMCPTools` is a total function of its inputs (it returns
normally on every configuration, environment, and activation outcome), and
when the sole provider's activation throws — an activation error for every
key, covering both thrown `ActivationError`s and a thrown
`Context7ApiKeyError` — the returned result has an empty `enabledSources`
list and an empty tools mapping. -/
theorem activateAll_total_and_empty_on_failure
    (config : Option MCPToolsManagerConfig) (env : Option String)
    (io : String → Except String Conn)
    (h : ∀ k, ∃ e, io k = Except.error e) :
    (createMCPTools config env io).result.enabledSources = [] ∧
      (createMCPTools config env io).result.tools = [] := by
  obtain ⟨err, herr⟩ :=
    createContext7Tools_error_of_io
      (resolveContext7Config (Option.bind config MCPToolsManagerConfig.context7))
      env io h
  unfold createMCPTools
  simp only [herr]
  repeat' split
  all_goals exact ⟨rfl, rfl⟩

/-- C1 witness: the scenario of the spec — an explicitly configured provider
whose activation throws — at concrete inputs. -/
theorem activateAll_total_and_empty_on_failure_witness :
    (createMCPTools (some { context7 := some (C7Entry.settings { apiKey := some "x" }) })
        none ioFail).result.enabledSources = [] ∧
      (createMCPTools (some { context7 := some (C7Entry.settings { apiKey := some "x" }) })
        none ioFail).result.tools = [] :=
  activateAll_total_and_empty_on_failure
    (some { context7 := some (C7Entry.settings { apiKey := some "x" }) })
    none ioFail (fun _ => ⟨"spawn failure", rfl⟩)

/-- C2: when the provider entry is explicitly disabled (`context7: false`),
`createMCPTools` performs no adapter call at all — no availability probe and
no activation — and the provider does not appear in `enabledSources`. -/
theorem disabled_provider_skipped_entirely
    (config : Option MCPToolsManagerConfig) (env : Option String)
    (io : String → Except String Conn)
    (h : Option.bind config MCPToolsManagerConfig.context7
          = some (C7Entry.enable false)) :
    (createMCPTools config env io).calls = [] ∧
      (createMCPTools config env io).result.enabledSources = [] := by
  unfold createMCPTools
  simp [h]

/-- C2 witness: the disabled entry at concrete inputs. -/
theorem disabled_provider_skipped_entirely_witness :
    (createMCPTools (some { context7 := some (C7Entry.enable false) })
        (some "envkey") ioOk).calls = [] ∧
      (createMCPTools (some { context7 := some (C7Entry.enable false) })
        (some "envkey") ioOk).result.enabledSources = [] :=
  disabled_provider_skipped_entirely
    (some { context7 := some (C7Entry.enable false) }) (some "envkey") ioOk rfl

/-- C4: when the provider has no configuration entry at all, `createMCPTools`
attempts activation (invokes the adapter's activate operation) exactly when
the auto-detection probe `isContext7Available` returns true, called with no
explicit configuration, at call time. -/
theorem autodetect_activation_iff_available
    (config : Option MCPToolsManagerConfig) (env : Option String)
    (io : String → Except String Conn)
    (h : Option.bind config MCPToolsManagerConfig.context7 = none) :
    (AdapterCall.activateCall ∈ (createMCPTools config env io).calls ↔
      isContext7Available none env = true) := by
  unfold createMCPTools
  by_cases hav : isContext7Available none env = true
  · cases hcr : createContext7Tools none env io with
    | ok r => simp [h, resolveContext7Config, hav, hcr]
    | error e => simp [h, resolveContext7Config, hav, hcr]
  · simp [h, resolveContext7Config, hav]

/-- C4 witness: no configuration argument at all, environment key present. -/
theorem autodetect_activation_iff_available_witness :
    (AdapterCall.activateCall ∈ (createMCPTools none (some "envkey") ioOk).calls ↔
      isContext7Available none (some "envkey") = true) :=
  autodetect_activation_iff_available none (some "envkey") ioOk rfl

/-- C3 counterexample: provider explicitly requested (`context7: true`),
environment empty, so no configuration can be resolved — yet no warning is
emitted and the activate operation is never invoked: the manager's
availability re-check skips activation before a `Context7ApiKeyError` could
propagate out of it, contradicting the claimed
catch-and-downgrade-to-warning behavior. -/
theorem missing_config_no_warning_emitted :
    (createMCPTools (some { context7 := some (C7Entry.enable true) }) none ioOk).warnings
        = [] ∧
      AdapterCall.activateCall ∉
        (createMCPTools (some { context7 := some (C7Entry.enable true) }) none ioOk).calls := by
  decide

/-- C3 amended: if a provider was explicitly requested (entry present and not
the literal disable flag) but no configuration can be resolved for it
(`getApiKey` on the resolved configuration produces the
`Context7ApiKeyError`), then `createMCPTools` — which always returns
normally, so no error escapes it — excludes the provider from the result,
never invokes the activate operation, and emits no warning: the availability
guard skips activation before the error could be thrown and downgraded. -/
theorem explicit_request_unresolvable_excluded_silently
    (config : Option MCPToolsManagerConfig) (env : Option String)
    (io : String → Except String Conn)
    (hreq : ∃ en, Option.bind config MCPToolsManagerConfig.context7 = some en ∧
      en ≠ C7Entry.enable false)
    (hnores : getApiKey
        (resolveContext7Config (Option.bind config MCPToolsManagerConfig.context7)) env
        = Except.error {}) :
    (createMCPTools config env io).result.enabledSources = [] ∧
      (createMCPTools config env io).warnings = [] ∧
      AdapterCall.activateCall ∉ (createMCPTools config env io).calls := by
  obtain ⟨en, hen, hne⟩ := hreq
  have hav : isContext7Available
      (resolveContext7Config (Option.bind config MCPToolsManagerConfig.context7)) env
      = false := by
    unfold isContext7Available
    rw [hnores]
  rw [hen] at hav
  unfold createMCPTools
  simp [hen, hne, hav]

/-- C3 amended witness: concrete instance of the amended claim, with the
entry `context7: true` and no environment key. -/
theorem explicit_request_unresolvable_excluded_silently_witness :
    (createMCPTools (some { context7 := some (C7Entry.enable true) }) none ioFail).result.enabledSources
        = [] ∧
      (createMCPTools (some { context7 := some (C7Entry.enable true) }) none ioFail).warnings
        = [] ∧
      AdapterCall.activateCall ∉
        (createMCPTools (some { context7 := some (C7Entry.enable true) }) none ioFail).calls :=
  explicit_request_unresolvable_excluded_silently
    (some { context7 := some (C7Entry.enable true) }) none ioFail
    ⟨C7Entry.enable true, rfl, by decide⟩ rfl

/-- C6: the close operation of a `createMCPTools` result dispatches one
invocation event per retained per-provider close function, in order (each is
invoked exactly once); every retained close is invoked no matter which
outcomes the others settle with, so one rejection does not prevent the other
invocations; and with an empty retained list the combined close completes
without error as a no-op. -/
theorem runClose_invokes_each_retained_once
    (config : Option MCPToolsManagerConfig) (env : Option String)
    (io : String → Except String Conn) :
    ((createMCPTools config env io).result.runClose.1.map Prod.fst
        = (createMCPTools config env io).result.closes.map CloseFn.id) ∧
      (∀ f, f ∈ (createMCPTools config env io).result.closes →
        (f.id, f.result) ∈ (createMCPTools config env io).result.runClose.1) ∧
      ((createMCPTools config env io).result.closes = [] →
        (createMCPTools config env io).result.runClose = ([], CloseOutcome.ok)) := by
  refine ⟨?_, ?_, ?_⟩
  · simp [MCPToolsResult.runClose, dispatchCloses, List.map_map]
  · intro f hf
    exact List.mem_map_of_mem (fun f => (f.id, f.result)) hf
  · intro h
    simp [MCPToolsResult.runClose, dispatchCloses, promiseAllClose, h]

/-- C6 witness: a provider activated with an explicit key retains a close
function that rejects when invoked; its invocation event is nevertheless
dispatched. -/
theorem runClose_invokes_each_retained_once_witness :
    (7, CloseOutcome.failed "close-failure") ∈
      (createMCPTools (some { context7 := some (C7Entry.settings { apiKey := some "k" }) })
        none ioOk).result.runClose.1 :=
  (runClose_invokes_each_retained_once
      (some { context7 := some (C7Entry.settings { apiKey := some "k" }) }) none ioOk).2.1
    { id := 7, result := CloseOutcome.failed "close-failure" } (by decide)

/-- C10: when the explicit configuration carries a non-empty API key, the
results of `getApiKey`, `isContext7Available`, `createContext7Tools` (hence
the key handed to the connection oracle), and `createMCPTools` do not depend
on the `CONTEXT7_API_KEY` environment value: two runs differing only in that
value coincide, and resolution returns the explicit key. -/
theorem explicit_key_env_independent (cfg : Context7Config) (k : String)
    (e1 e2 : Option String) (io : String → Except String Conn)
    (hk : cfg.apiKey = some k) (hne : k ≠ "") :
    getApiKey (some cfg) e1 = Except.ok k ∧
      getApiKey (some cfg) e2 = Except.ok k ∧
      isContext7Available (some cfg) e1 = isContext7Available (some cfg) e2 ∧
      createContext7Tools (some cfg) e1 io = createContext7Tools (some cfg) e2 io ∧
      createMCPTools (some { context7 := some (C7Entry.settings cfg) }) e1 io
        = createMCPTools (some { context7 := some (C7Entry.settings cfg) }) e2 io := by
  have hg : ∀ e, getApiKey (some cfg) e = Except.ok k := by
    intro e
    simp [getApiKey, mergedApiKey, hk, hne]
  have hav : ∀ e, isContext7Available (some cfg) e = true := by
    intro e
    simp [isContext7Available, hg e]
  have hct : ∀ e, createContext7Tools (some cfg) e io =
      (match io k with
        | Except.error e => Except.error (MCPError.activation e)
        | Except.ok conn => Except.ok { tools := conn.tools, close := conn.close }) := by
    intro e
    simp [createContext7Tools, hg e]
  refine ⟨hg e1, hg e2, by rw [hav e1, hav e2], by rw [hct e1, hct e2], ?_⟩
  unfold createMCPTools
  simp [resolveContext7Config, hav e1, hav e2, hct e1, hct e2]

/-- C10 witness: the same explicit non-empty key with the environment unset
versus set to a different key. -/
theorem explicit_key_env_independent_witness :
    getApiKey (some { apiKey := some "explicit-key" }) none = Except.ok "explicit-key" ∧
      getApiKey (some { apiKey := some "explicit-key" }) (some "env-key")
        = Except.ok "explicit-key" ∧
      isContext7Available (some { apiKey := some "explicit-key" }) none
        = isContext7Available (some { apiKey := some "explicit-key" }) (some "env-key") ∧
      createContext7Tools (some { apiKey := some "explicit-key" }) none ioOk
        = createContext7Tools (some { apiKey := some "explicit-key" }) (some "env-key") ioOk ∧
      createMCPTools
          (some { context7 := some (C7Entry.settings { apiKey := some "explicit-key" }) })
          none ioOk
        = createMCPTools
          (some { context7 := some (C7Entry.settings { apiKey := some "explicit-key" }) })
          (some "env-key") ioOk :=
  explicit_key_env_independent { apiKey := some "explicit-key" } "explicit-key"
    none (some "env-key") ioOk rfl (by decide)

end MCPTools
